import Mathlib

/-!
# Verification of the shader-variable binding and state-mirror layer

A shallow embedding of the repository's WebGL wrapper classes
(`Attribute`, the concrete `Uniform` subtypes, `RenderingContext`,
`Texture2D`) as pure state-passing functions that also return the list
of device ("gl") calls they issue.  Device calls are recorded as
constructors of per-component call inductives; device state (for the
`RenderingContext` mirror) is an explicit register file.  Theorems at
the end of the file settle the specification claims.
-/

namespace Umbra

/-! ## Device constants (from `WebGLConstant.ts` / `part_003`) -/

def ARRAY_BUFFER : Nat := 0x8892

def DEPTH_FUNC : Nat := 0x0b74

def VIEWPORT : Nat := 0x0ba2

def STENCIL_FUNC : Nat := 0x0b92

def STENCIL_VALUE_MASK : Nat := 0x0b93

def STENCIL_REF : Nat := 0x0b97

def STENCIL_WRITEMASK : Nat := 0x0b98

def STENCIL_BACK_FUNC : Nat := 0x8800

def STENCIL_BACK_REF : Nat := 0x8ca3

def STENCIL_BACK_VALUE_MASK : Nat := 0x8ca4

def STENCIL_BACK_WRITEMASK : Nat := 0x8ca5

def FRONT : Nat := 0x0404

def BACK : Nat := 0x0405

def FRONT_AND_BACK : Nat := 0x0408

def TEXTURE0 : Nat := 0x84c0

def TEXTURE_2D : Nat := 0x0de1

/-! ## Buffers and attribute values

The `Buffer` class itself is not among the provided sources (only its
callers are), so it is kept opaque: a device-handle identifier.
-/

/-- Modelled from the spec: a `Resource` owning one device-side buffer
object, identified here by its device handle.  (`Buffer.ts` is not among
the provided sources; only its callers are.) -/
structure Buffer where
  handle : Nat
deriving DecidableEq, Repr

/-- The descriptor assigned to an attribute: a backing buffer plus the
stride/offset/size/normalization fields of the pointer description
(`AttributeValue.ts` is not among the provided sources; the fields
follow the spec's "stride/offset/type/normalization descriptor").
Fields other than `buffer` default to `none`, matching the object
literal `\x7b buffer: value \x7d` built by `Attribute`'s `value` setter. -/
structure AttributeValue where
  buffer : Buffer
  size : Option Nat := none
  stride : Option Nat := none
  offset : Option Nat := none
  normalized : Option Bool := none
deriving DecidableEq, Repr

/-- The argument type of the `value` setter of `Attribute`
(`AttributeValue | Buffer` in the source). -/
inductive AttrInput where
  | buf (b : Buffer)
  | val (v : AttributeValue)
deriving DecidableEq, Repr

/-- Device calls issued by `Attribute` (and by `Buffer.bind`). -/
inductive AttrCall where
  | enableVertexAttribArray (location : Int)
  | disableVertexAttribArray (location : Int)
  | bindBuffer (target : Nat) (buffer : Buffer)
  | vertexAttribPointer (location : Int) (value : AttributeValue)
deriving DecidableEq, Repr

/-- Recognizes the attribute-pointer device call. -/
def AttrCall.isPointer : AttrCall → Bool
  | AttrCall.vertexAttribPointer _ _ => true
  | _ => false

/-- The mutable state of one `Attribute` instance (`part_006`):
its resolved location and the two private caches `enabledCache` and
`valueCache` (both start out `undefined`). -/
structure AttrState where
  location : Int
  enabledCache : Option Bool := none
  valueCache : Option AttributeValue := none
deriving DecidableEq, Repr

/-- A freshly constructed `Attribute`: both caches unset. -/
def Attribute.new (location : Int) : AttrState :=
  { location := location }

/-- The `enabled` getter (`part_006` lines 57-59):
`return (this.enabledCache ??= false)` — seeds the cache to `false`
when it is unset; issues no device call. -/
def Attribute.enabled_get (s : AttrState) : Bool × AttrState × List AttrCall :=
  match s.enabledCache with
  | some b => (b, s, [])
  | none => (false, { s with enabledCache := some false }, [])

/-- The `enabled` setter (`part_006` lines 66-77): early-returns when
the (seeded) cache equals the requested value; otherwise issues exactly
one enable/disable call and updates the cache. -/
def Attribute.enabled_set (v : Bool) (s : AttrState) : AttrState × List AttrCall :=
  let g := Attribute.enabled_get s
  if g.1 = v then
    (g.2.1, g.2.2)
  else
    ({ g.2.1 with enabledCache := some v },
      g.2.2 ++
        [if v then AttrCall.enableVertexAttribArray s.location
         else AttrCall.disableVertexAttribArray s.location])

/-- `const realValue = "buffer" in value ? value : \x7b buffer: value \x7d`
(`part_006` line 97). -/
def Attribute.realValue : AttrInput → AttributeValue
  | AttrInput.val v => v
  | AttrInput.buf b => { buffer := b }

/-- Modelled from the spec: `Buffer.bind(target)` always issues the one
bind call for the given binding point, with no client-side binding cache
(§4.1; `Buffer.ts` is not among the provided sources). -/
def Buffer.bind (b : Buffer) (target : Nat) : List AttrCall :=
  [AttrCall.bindBuffer target b]

/-- Modelled from the spec: the concrete subtype's `setterInternal`
issues the one device call describing the attribute pointer for this
location (§4.2-4.3; the concrete `Attribute` subclasses are not among
the provided sources). -/
def Attribute.setterInternal (location : Int) (rv : AttributeValue) : List AttrCall :=
  [AttrCall.vertexAttribPointer location rv]

/-- The `value` setter (`part_006` lines 94-101): force `enabled = true`,
normalize the input, bind the backing buffer to `ARRAY_BUFFER`, issue the
pointer call, update the cache — unconditionally, with no comparison
against the cached value. -/
def Attribute.value_set (inp : AttrInput) (s : AttrState) : AttrState × List AttrCall :=
  let e := Attribute.enabled_set true s
  let rv := Attribute.realValue inp
  let c2 := Buffer.bind rv.buffer ARRAY_BUFFER
  let c3 := Attribute.setterInternal s.location rv
  ({ e.1 with valueCache := some rv }, e.2 ++ c2 ++ c3)

/-- The `value` getter (`part_006` lines 86-88): returns the cache,
issuing no device call. -/
def Attribute.value_get (s : AttrState) : Option AttributeValue × List AttrCall :=
  (s.valueCache, [])

/-! ## The Uniform family

The concrete subtypes present in the sources are
`FloatMatrix4x4Uniform`, `FloatMatrix4x3Uniform`,
`IntegerVector3Uniform`, `FloatVector2Uniform` and
`UnsignedIntegerVector2Uniform`; each issues exactly one device call in
its iterable/array setter.  Numeric payloads are forwarded verbatim and
never computed with, so they are carried as `Int`s here.
-/

/-- The per-uniform identity and windowing fields read by the concrete
setters: `location`, the matrix `transpose` flag, and the optional
`sourceOffset`/`sourceLength` window. -/
structure UniformDesc where
  location : Int
  transpose : Bool
  sourceOffset : Option Nat
  sourceLength : Option Nat
deriving DecidableEq, Repr

/-- Device entry points called by the concrete uniform subtypes. -/
inductive UniformCall where
  | uniformMatrix4fv (location : Int) (transpose : Bool) (value : List Int)
      (srcOffset srcLength : Option Nat)
  | uniformMatrix4x3fv (location : Int) (transpose : Bool) (value : List Int)
      (srcOffset srcLength : Option Nat)
  | uniform3iv (location : Int) (value : List Int) (srcOffset srcLength : Option Nat)
  | uniform2fv (location : Int) (value : List Int) (srcOffset srcLength : Option Nat)
  | uniform2uiv (location : Int) (value : List Int) (srcOffset srcLength : Option Nat)
deriving DecidableEq, Repr

/-- `FloatMatrix4x4Uniform.arraySetter`: one `uniformMatrix4fv` call. -/
def FloatMatrix4x4Uniform.arraySetter (u : UniformDesc) (value : List Int) :
    List UniformCall :=
  [UniformCall.uniformMatrix4fv u.location u.transpose value u.sourceOffset u.sourceLength]

/-- `FloatMatrix4x3Uniform.arraySetter`: one `uniformMatrix4x3fv` call. -/
def FloatMatrix4x3Uniform.arraySetter (u : UniformDesc) (value : List Int) :
    List UniformCall :=
  [UniformCall.uniformMatrix4x3fv u.location u.transpose value u.sourceOffset u.sourceLength]

/-- `IntegerVector3Uniform.iterableSetter`: one `uniform3iv` call. -/
def IntegerVector3Uniform.iterableSetter (u : UniformDesc) (value : List Int) :
    List UniformCall :=
  [UniformCall.uniform3iv u.location value u.sourceOffset u.sourceLength]

/-- `FloatVector2Uniform.iterableSetterInternal`: one `uniform2fv` call. -/
def FloatVector2Uniform.iterableSetterInternal (u : UniformDesc) (value : List Int) :
    List UniformCall :=
  [UniformCall.uniform2fv u.location value u.sourceOffset u.sourceLength]

/-- `UnsignedIntegerVector2Uniform.iterableSetter`: one `uniform2uiv` call. -/
def UnsignedIntegerVector2Uniform.iterableSetter (u : UniformDesc) (value : List Int) :
    List UniformCall :=
  [UniformCall.uniform2uiv u.location value u.sourceOffset u.sourceLength]

/-- The concrete uniform subtypes present in the sources, as a closed
(kind, shape) index. -/
inductive UniformKind where
  | floatMatrix4x4
  | floatMatrix4x3
  | integerVector3
  | floatVector2
  | unsignedIntegerVector2
deriving DecidableEq, Repr

/-- Dispatch from a subtype to its source-defined iterable/array setter. -/
def UniformKind.iterableSetter (k : UniformKind) (u : UniformDesc) (value : List Int) :
    List UniformCall :=
  match k with
  | UniformKind.floatMatrix4x4 => FloatMatrix4x4Uniform.arraySetter u value
  | UniformKind.floatMatrix4x3 => FloatMatrix4x3Uniform.arraySetter u value
  | UniformKind.integerVector3 => IntegerVector3Uniform.iterableSetter u value
  | UniformKind.floatVector2 => FloatVector2Uniform.iterableSetterInternal u value
  | UniformKind.unsignedIntegerVector2 => UnsignedIntegerVector2Uniform.iterableSetter u value

/-- The single device entry point that the spec's dispatch table assigns
to each subtype, with the arguments the spec prescribes: the location,
(for matrix forms) the transpose flag, the assigned value, and the
source offset and length.  This definition follows the spec's words
(§4.4 and §8), for comparison with the source-derived setters. -/
def UniformKind.specEntryPoint (k : UniformKind) (u : UniformDesc) (value : List Int) :
    UniformCall :=
  match k with
  | UniformKind.floatMatrix4x4 =>
      UniformCall.uniformMatrix4fv u.location u.transpose value u.sourceOffset u.sourceLength
  | UniformKind.floatMatrix4x3 =>
      UniformCall.uniformMatrix4x3fv u.location u.transpose value u.sourceOffset u.sourceLength
  | UniformKind.integerVector3 =>
      UniformCall.uniform3iv u.location value u.sourceOffset u.sourceLength
  | UniformKind.floatVector2 =>
      UniformCall.uniform2fv u.location value u.sourceOffset u.sourceLength
  | UniformKind.unsignedIntegerVector2 =>
      UniformCall.uniform2uiv u.location value u.sourceOffset u.sourceLength

/-- Whether the subtype is a matrix form. -/
def UniformKind.isMatrix : UniformKind → Bool
  | UniformKind.floatMatrix4x4 => true
  | UniformKind.floatMatrix4x3 => true
  | _ => false

/-- The matrix element count (rows × columns) of a matrix form:
16 for the 4×4 form, 12 for the 4×3 form. -/
def UniformKind.elementCount : UniformKind → Nat
  | UniformKind.floatMatrix4x4 => 16
  | UniformKind.floatMatrix4x3 => 12
  | UniformKind.integerVector3 => 3
  | UniformKind.floatVector2 => 2
  | UniformKind.unsignedIntegerVector2 => 2

/-- The error raised when a value of the wrong shape is assigned. -/
inductive ValueShapeError where
  | mk
deriving DecidableEq, Repr

/-- Modelled from the spec: the `value` assignment path of the missing
`Uniform`/`MatrixUniform` base classes (§4.2, §4.4).  Matrix forms
validate that the source sequence length is an exact multiple of the
matrix's element count, raising `ValueShapeError` (with zero device
calls) on violation; otherwise exactly one device call is issued via the
concrete subtype's setter. -/
def Uniform.assign (k : UniformKind) (u : UniformDesc) (value : List Int) :
    Except ValueShapeError (List UniformCall) :=
  if k.isMatrix && decide (value.length % k.elementCount ≠ 0) then
    Except.error ValueShapeError.mk
  else
    Except.ok (k.iterableSetter u value)

/-- The value cache of one uniform instance. -/
structure UniformState where
  valueCache : Option (List Int) := none
deriving DecidableEq, Repr

/-- Modelled from the spec: setting `value` on a `Uniform` dispatches to
the concrete setter and records the assignment in the cache (§4.2; the
`Uniform` base class is not among the provided sources). -/
def Uniform.value_set (k : UniformKind) (u : UniformDesc) (v : List Int)
    (s : UniformState) : UniformState × List UniformCall :=
  ({ s with valueCache := some v }, k.iterableSetter u v)

/-- Modelled from the spec: reading `value` returns the last cached
assignment, issuing no device query (§4.2 item 3). -/
def Uniform.value_get (s : UniformState) : Option (List Int) × List UniformCall :=
  (s.valueCache, [])

/-! ## The RenderingContext state mirror (`part_004`)

`RenderingContext` holds no private fields besides `gl`: every getter
calls `gl.getParameter` (or `gl.isEnabled`) and every setter calls the
corresponding `gl` write entry point.  The device is modelled as a
register file (per the WebGL specification's `getParameter` semantics)
plus a trace of the issued calls, so that queries and writes can be
counted.
-/

/-- Calls issued to the device by `RenderingContext`. -/
inductive GLCall where
  | getParameterQ (pname : Nat)
  | depthFuncC (func : Int)
  | viewportC (x y w h : Int)
  | stencilFuncSeparateC (face : Nat) (func ref mask : Int)
  | stencilMaskSeparateC (face : Nat) (mask : Int)
deriving DecidableEq, Repr

/-- Recognizes a device query (`getParameter`). -/
def GLCall.isQuery : GLCall → Bool
  | GLCall.getParameterQ _ => true
  | _ => false

/-- The device's global-state registers relevant to the modelled slots,
with a trace of the calls issued to it. -/
structure Device where
  depthFuncReg : Int
  viewportReg : Int × Int × Int × Int
  frontFunc : Int
  frontRef : Int
  frontValueMask : Int
  frontWriteMask : Int
  backFunc : Int
  backRef : Int
  backValueMask : Int
  backWriteMask : Int
  trace : List GLCall
deriving DecidableEq, Repr

/-- WebGL `getParameter` semantics for the scalar parameters used by
the modelled `RenderingContext` properties: returns the register named
by `pname` and records one query. -/
def Device.getParameter (pname : Nat) (d : Device) : Int × Device :=
  (if pname = DEPTH_FUNC then d.depthFuncReg
   else if pname = STENCIL_FUNC then d.frontFunc
   else if pname = STENCIL_REF then d.frontRef
   else if pname = STENCIL_VALUE_MASK then d.frontValueMask
   else if pname = STENCIL_WRITEMASK then d.frontWriteMask
   else if pname = STENCIL_BACK_FUNC then d.backFunc
   else if pname = STENCIL_BACK_REF then d.backRef
   else if pname = STENCIL_BACK_VALUE_MASK then d.backValueMask
   else if pname = STENCIL_BACK_WRITEMASK then d.backWriteMask
   else 0,
   { d with trace := d.trace ++ [GLCall.getParameterQ pname] })

/-- WebGL `getParameter` semantics for the four-component `VIEWPORT`
parameter. -/
def Device.getParameter4 (pname : Nat) (d : Device) :
    (Int × Int × Int × Int) × Device :=
  (d.viewportReg, { d with trace := d.trace ++ [GLCall.getParameterQ pname] })

/-- WebGL `depthFunc` semantics. -/
def Device.glDepthFunc (v : Int) (d : Device) : Device :=
  { d with depthFuncReg := v, trace := d.trace ++ [GLCall.depthFuncC v] }

/-- WebGL `viewport` semantics. -/
def Device.glViewport (x y w h : Int) (d : Device) : Device :=
  { d with viewportReg := (x, y, w, h), trace := d.trace ++ [GLCall.viewportC x y w h] }

/-- WebGL `stencilFuncSeparate` semantics: sets the function, reference
and value mask for the given face(s). -/
def Device.glStencilFuncSeparate (face : Nat) (f r m : Int) (d : Device) : Device :=
  let d1 :=
    if face = FRONT then { d with frontFunc := f, frontRef := r, frontValueMask := m }
    else if face = BACK then { d with backFunc := f, backRef := r, backValueMask := m }
    else { d with frontFunc := f, frontRef := r, frontValueMask := m,
                  backFunc := f, backRef := r, backValueMask := m }
  { d1 with trace := d.trace ++ [GLCall.stencilFuncSeparateC face f r m] }

/-- WebGL `stencilMaskSeparate` semantics: sets the write mask for the
given face(s). -/
def Device.glStencilMaskSeparate (face : Nat) (m : Int) (d : Device) : Device :=
  let d1 :=
    if face = FRONT then { d with frontWriteMask := m }
    else if face = BACK then { d with backWriteMask := m }
    else { d with frontWriteMask := m, backWriteMask := m }
  { d1 with trace := d.trace ++ [GLCall.stencilMaskSeparateC face m] }

/-- `get depthFunc` (`part_004` lines 222-224): a direct device query. -/
def RenderingContext.depthFunc_get (d : Device) : Int × Device :=
  Device.getParameter DEPTH_FUNC d

/-- `set depthFunc` (`part_004` lines 225-227): a direct write-through. -/
def RenderingContext.depthFunc_set (v : Int) (d : Device) : Device :=
  Device.glDepthFunc v d

/-- `get viewport` (`part_004` lines 85-87): a direct device query. -/
def RenderingContext.viewport_get (d : Device) : (Int × Int × Int × Int) × Device :=
  Device.getParameter4 VIEWPORT d

/-- `set viewport` (`part_004` lines 88-90): a direct write-through. -/
def RenderingContext.viewport_set (x y w h : Int) (d : Device) : Device :=
  Device.glViewport x y w h d

/-- `get stencilFuncFront`: queries `STENCIL_FUNC`. -/
def RenderingContext.stencilFuncFront_get (d : Device) : Int × Device :=
  Device.getParameter STENCIL_FUNC d

/-- `get stencilRefFront`: queries `STENCIL_REF`. -/
def RenderingContext.stencilRefFront_get (d : Device) : Int × Device :=
  Device.getParameter STENCIL_REF d

/-- `get stencilValueMaskFront`: queries `STENCIL_VALUE_MASK`. -/
def RenderingContext.stencilValueMaskFront_get (d : Device) : Int × Device :=
  Device.getParameter STENCIL_VALUE_MASK d

/-- `get stencilMaskFront`: queries `STENCIL_WRITEMASK`. -/
def RenderingContext.stencilMaskFront_get (d : Device) : Int × Device :=
  Device.getParameter STENCIL_WRITEMASK d

/-- `get stencilRefBack`: queries `STENCIL_BACK_REF`. -/
def RenderingContext.stencilRefBack_get (d : Device) : Int × Device :=
  Device.getParameter STENCIL_BACK_REF d

/-- `set stencilFuncFront` (`part_004` lines 507-509):
`stencilFuncSeparate(FRONT, value, this.stencilRefFront, this.stencilMaskFront)`,
the getter arguments being evaluated left to right. -/
def RenderingContext.stencilFuncFront_set (v : Int) (d : Device) : Device :=
  let r := RenderingContext.stencilRefFront_get d
  let m := RenderingContext.stencilMaskFront_get r.2
  Device.glStencilFuncSeparate FRONT v r.1 m.1 m.2

/-- `set stencilRefFront` (`part_004` lines 515-517):
`stencilFuncSeparate(FRONT, this.stencilFuncFront, value, this.stencilMaskFront)`. -/
def RenderingContext.stencilRefFront_set (v : Int) (d : Device) : Device :=
  let f := RenderingContext.stencilFuncFront_get d
  let m := RenderingContext.stencilMaskFront_get f.2
  Device.glStencilFuncSeparate FRONT f.1 v m.1 m.2

/-- `set stencilValueMaskFront` (`part_004` lines 523-525):
`stencilFuncSeparate(FRONT, this.stencilFuncFront, this.stencilRefBack, value)` —
note that the source reads the back-face reference here. -/
def RenderingContext.stencilValueMaskFront_set (v : Int) (d : Device) : Device :=
  let f := RenderingContext.stencilFuncFront_get d
  let r := RenderingContext.stencilRefBack_get f.2
  Device.glStencilFuncSeparate FRONT f.1 r.1 v r.2

/-- `set stencilMaskFront` (`part_004` lines 570-572):
`stencilMaskSeparate(FRONT, value)`. -/
def RenderingContext.stencilMaskFront_set (v : Int) (d : Device) : Device :=
  Device.glStencilMaskSeparate FRONT v d

/-! ## Texture2D (`part_003`) -/

/-- The members of the `TextureFormat` enumeration referenced in
`part_003` (the enumeration's defining module is not among the provided
sources; the constructors are those the source names). -/
inductive TextureFormat where
  | RGB
  | RGBA
  | LUMINANCE_ALPHA
  | LUMINANCE
  | ALPHA
  | R8
  | R8UI
  | RG8
  | RG8UI
  | RGB8
  | SRGB8
  | RGB565
  | RGB8UI
  | RGBA8
  | SRGB8_ALPHA8
  | RGB5_A1
  | RGBA4
  | RGBA8UI
  | R16F
  | R32F
  | RG16F
  | RG32F
  | R11F_G11F_B10F
  | RGB9_E5
  | RGB16F
  | RGB32F
  | RGBA16F
  | RGBA32F
  | RGB10_A2
  | RED
  | RED_INTEGER
  | RG
  | RG_INTEGER
  | RGB_INTEGER
  | RGBA_INTEGER
deriving DecidableEq, Repr

/-- The members of the `TextureDataType` enumeration referenced in
`part_003`.  Every member's enumeration value is nonzero, so the
truthiness test `if (this.#type)` coincides with "the field is set". -/
inductive TextureDataType where
  | UNSIGNED_BYTE
  | FLOAT
  | UNSIGNED_INT_2_10_10_10_REV
deriving DecidableEq, Repr

/-- The state of one `Texture2D` instance.  `typeCache` and
`formatCache` model the private fields `#type` and `#format`; `pixels`
is the opaque pixel source, carried as an identifier. -/
structure Texture2D where
  target : Nat := TEXTURE_2D
  texture : Nat
  lod : Int := 0
  internalFormat : TextureFormat := TextureFormat.RGBA
  typeCache : Option TextureDataType := none
  formatCache : Option TextureFormat := none
  width : Option Nat := none
  height : Option Nat := none
  pixels : Nat
deriving DecidableEq, Repr

/-- The `type` getter (`part_003` lines 84-123): the explicitly set
value if any, else a default determined by `internalFormat` through the
source's `switch`; formats outside the `switch` throw an `Error`. -/
def Texture2D.type_get (t : Texture2D) : Except String TextureDataType :=
  match t.typeCache with
  | some v => Except.ok v
  | none =>
    match t.internalFormat with
    | TextureFormat.RGB | TextureFormat.RGBA | TextureFormat.LUMINANCE_ALPHA
    | TextureFormat.LUMINANCE | TextureFormat.ALPHA | TextureFormat.R8
    | TextureFormat.R8UI | TextureFormat.RG8 | TextureFormat.RG8UI
    | TextureFormat.RGB8 | TextureFormat.SRGB8 | TextureFormat.RGB565
    | TextureFormat.RGB8UI | TextureFormat.RGBA8 | TextureFormat.SRGB8_ALPHA8
    | TextureFormat.RGB5_A1 | TextureFormat.RGBA4 | TextureFormat.RGBA8UI =>
        Except.ok TextureDataType.UNSIGNED_BYTE
    | TextureFormat.R16F | TextureFormat.R32F | TextureFormat.RG16F
    | TextureFormat.RG32F | TextureFormat.R11F_G11F_B10F | TextureFormat.RGB9_E5
    | TextureFormat.RGB16F | TextureFormat.RGB32F | TextureFormat.RGBA16F
    | TextureFormat.RGBA32F =>
        Except.ok TextureDataType.FLOAT
    | TextureFormat.RGB10_A2 =>
        Except.ok TextureDataType.UNSIGNED_INT_2_10_10_10_REV
    | _ => Except.error "Unset data type without default for selected format."

/-- The `type` setter (`part_003` lines 124-126). -/
def Texture2D.type_set (v : TextureDataType) (t : Texture2D) : Texture2D :=
  { t with typeCache := some v }

/-- The `format` getter (`part_003` lines 132-179): the explicitly set
value if any, else a default determined by `internalFormat`; the
`switch`'s `default` branch returns `internalFormat` itself, so this
getter never throws. -/
def Texture2D.format_get (t : Texture2D) : TextureFormat :=
  match t.formatCache with
  | some v => v
  | none =>
    match t.internalFormat with
    | TextureFormat.RGB | TextureFormat.RGB8 | TextureFormat.SRGB8
    | TextureFormat.RGB565 | TextureFormat.R11F_G11F_B10F | TextureFormat.RGB9_E5
    | TextureFormat.RGB16F | TextureFormat.RGB32F => TextureFormat.RGB
    | TextureFormat.RGBA | TextureFormat.RGBA8 | TextureFormat.SRGB8_ALPHA8
    | TextureFormat.RGB5_A1 | TextureFormat.RGB10_A2 | TextureFormat.RGBA4
    | TextureFormat.RGBA16F | TextureFormat.RGBA32F => TextureFormat.RGBA
    | TextureFormat.LUMINANCE_ALPHA => TextureFormat.LUMINANCE_ALPHA
    | TextureFormat.LUMINANCE => TextureFormat.LUMINANCE
    | TextureFormat.ALPHA => TextureFormat.ALPHA
    | TextureFormat.R8 | TextureFormat.R16F | TextureFormat.R32F => TextureFormat.RED
    | TextureFormat.R8UI => TextureFormat.RED_INTEGER
    | TextureFormat.RG8 | TextureFormat.RG16F | TextureFormat.RG32F => TextureFormat.RG
    | TextureFormat.RG8UI => TextureFormat.RG_INTEGER
    | TextureFormat.RGB8UI => TextureFormat.RGB_INTEGER
    | TextureFormat.RGBA8UI => TextureFormat.RGBA_INTEGER
    | other => other

/-- Device calls issued by `Texture2D.update` and `Texture.bind`. -/
inductive TexCall where
  | activeTexture (unit : Nat)
  | bindTexture (target : Nat) (texture : Nat)
  | texImage2D_sized (target : Nat) (lod : Int) (internalFormat : TextureFormat)
      (width height border : Nat) (format : TextureFormat)
      (dataType : TextureDataType) (pixels : Nat)
  | texImage2D_unsized (target : Nat) (lod : Int) (internalFormat : TextureFormat)
      (format : TextureFormat) (dataType : TextureDataType) (pixels : Nat)
deriving DecidableEq, Repr

/-- Recognizes a `texImage2D` upload call (either form). -/
def TexCall.isTexImage : TexCall → Bool
  | TexCall.texImage2D_sized _ _ _ _ _ _ _ _ _ => true
  | TexCall.texImage2D_unsized _ _ _ _ _ _ => true
  | _ => false

/-- `Texture.bind` (`part_003` lines 35-37): one `bindTexture` call. -/
def Texture.bind (t : Texture2D) : List TexCall :=
  [TexCall.bindTexture t.target t.texture]

/-- `Texture2D.update` (`part_003` lines 234-243): activate the unit,
bind, then one `texImage2D` — the sized form when both `width` and
`height` are numbers, the unsized form otherwise.  Evaluating the
`this.type` argument throws for an unlisted `internalFormat` with no
explicitly set type; in that case the exception propagates after the
activate and bind calls and before any upload, which the returned
`Bool` (true = threw) records. -/
def Texture2D.update (t : Texture2D) (textureUnit : Nat) : List TexCall × Bool :=
  let pre := TexCall.activeTexture (TEXTURE0 + textureUnit) :: Texture.bind t
  match t.width, t.height with
  | some w, some h =>
    match Texture2D.type_get t with
    | Except.ok dt =>
        (pre ++ [TexCall.texImage2D_sized t.target t.lod t.internalFormat w h 0
          (Texture2D.format_get t) dt t.pixels], false)
    | Except.error _ => (pre, true)
  | _, _ =>
    match Texture2D.type_get t with
    | Except.ok dt =>
        (pre ++ [TexCall.texImage2D_unsized t.target t.lod t.internalFormat
          (Texture2D.format_get t) dt t.pixels], false)
    | Except.error _ => (pre, true)

/-- The internal formats for which the `type` getter's `switch` has a
case (the "listed formats" of its defaulting table). -/
def listedTypeFormats : List TextureFormat :=
  [TextureFormat.RGB, TextureFormat.RGBA, TextureFormat.LUMINANCE_ALPHA,
   TextureFormat.LUMINANCE, TextureFormat.ALPHA, TextureFormat.R8,
   TextureFormat.R8UI, TextureFormat.RG8, TextureFormat.RG8UI,
   TextureFormat.RGB8, TextureFormat.SRGB8, TextureFormat.RGB565,
   TextureFormat.RGB8UI, TextureFormat.RGBA8, TextureFormat.SRGB8_ALPHA8,
   TextureFormat.RGB5_A1, TextureFormat.RGBA4, TextureFormat.RGBA8UI,
   TextureFormat.R16F, TextureFormat.R32F, TextureFormat.RG16F,
   TextureFormat.RG32F, TextureFormat.R11F_G11F_B10F, TextureFormat.RGB9_E5,
   TextureFormat.RGB16F, TextureFormat.RGB32F, TextureFormat.RGBA16F,
   TextureFormat.RGBA32F, TextureFormat.RGB10_A2]

/-- A concrete device state used to evaluate `RenderingContext`
properties: front and back stencil references differ (1 vs 2). -/
def d0 : Device :=
  { depthFuncReg := 513, viewportReg := (0, 0, 300, 150)
    frontFunc := 519, frontRef := 1, frontValueMask := 255, frontWriteMask := 255
    backFunc := 519, backRef := 2, backValueMask := 255, backWriteMask := 255
    trace := [] }

/-- A concrete `Texture2D` whose `internalFormat` has no entry in the
`type` defaulting table and whose `type` was never set. -/
def t0 : Texture2D :=
  { texture := 1, pixels := 0, internalFormat := TextureFormat.RED }

/-- A concrete `Texture2D` with default `internalFormat` (`RGBA`) and
both dimensions set. -/
def t1 : Texture2D :=
  { texture := 2, pixels := 5, width := some 4, height := some 4 }

/-! ## Theorems settling the claims -/

/-- C1: for every `Attribute`, setting `enabled` to the cached flag
issues zero device calls and leaves the cache (indeed the whole state)
unchanged; setting it to the opposite issues exactly one call
(`enableVertexAttribArray` when enabling, `disableVertexAttribArray`
when disabling) and updates the cache; reading `enabled` returns the
cache and issues no device call. -/
theorem claim_C1 (s : AttrState) (b : Bool) (h : s.enabledCache = some b) :
    Attribute.enabled_set b s = (s, []) ∧
    Attribute.enabled_set (!b) s =
      ({ s with enabledCache := some (!b) },
        [if !b then AttrCall.enableVertexAttribArray s.location
         else AttrCall.disableVertexAttribArray s.location]) ∧
    Attribute.enabled_get s = (b, s, []) := by
  cases b <;>
    simp [Attribute.enabled_set, Attribute.enabled_get, h]

/-- Witness for C1 at a concrete attribute whose cache holds `false`. -/
theorem claim_C1_witness :
    (AttrState.mk 3 (some false) none).enabledCache = some false ∧
    Attribute.enabled_set false (AttrState.mk 3 (some false) none) =
      (AttrState.mk 3 (some false) none, []) :=
  ⟨rfl, (claim_C1 (AttrState.mk 3 (some false) none) false rfl).1⟩

/-- C2: every `value` assignment on an `Attribute` forces
`enabled = true`, then binds the backing buffer to `ARRAY_BUFFER`, then
issues the one pointer call, then updates the value cache; the pointer
call is never suppressed, so two consecutive identical assignments each
issue exactly one pointer call. -/
theorem claim_C2 (s : AttrState) (inp : AttrInput) :
    (Attribute.value_set inp s).2 =
      (Attribute.enabled_set true s).2 ++
        [AttrCall.bindBuffer ARRAY_BUFFER (Attribute.realValue inp).buffer,
         AttrCall.vertexAttribPointer s.location (Attribute.realValue inp)] ∧
    ((Attribute.enabled_set true s).2 = [] ∨
      (Attribute.enabled_set true s).2 = [AttrCall.enableVertexAttribArray s.location]) ∧
    (Attribute.value_set inp s).1.enabledCache = some true ∧
    (Attribute.value_set inp s).1.valueCache = some (Attribute.realValue inp) ∧
    List.countP (fun c => AttrCall.isPointer c) (Attribute.value_set inp s).2 = 1 ∧
    List.countP (fun c => AttrCall.isPointer c)
      (Attribute.value_set inp ((Attribute.value_set inp s).1)).2 = 1 := by
  rcases hs : s.enabledCache with _ | b
  · simp [Attribute.value_set, Attribute.enabled_set, Attribute.enabled_get,
      Buffer.bind, Attribute.setterInternal, AttrCall.isPointer, hs]
  · cases b <;>
      simp [Attribute.value_set, Attribute.enabled_set, Attribute.enabled_get,
        Buffer.bind, Attribute.setterInternal, AttrCall.isPointer, hs]

/-- C3 (code evaluated at the failing input): on a device whose front
stencil reference is 1 and whose back stencil reference is 2, setting
`stencilValueMaskFront` issues a front-face `stencilFuncSeparate` call
whose reference argument is 2 — the back-face reference, not the
front-face one. -/
theorem claim_C3_failing_input :
    d0.frontRef = 1 ∧ d0.backRef = 2 ∧
    (RenderingContext.stencilValueMaskFront_set 7 d0).trace =
      [GLCall.getParameterQ STENCIL_FUNC,
       GLCall.getParameterQ STENCIL_BACK_REF,
       GLCall.stencilFuncSeparateC FRONT 519 2 7] := by
  refine ⟨rfl, rfl, ?_⟩
  simp [RenderingContext.stencilValueMaskFront_set, RenderingContext.stencilFuncFront_get,
    RenderingContext.stencilRefBack_get, Device.getParameter, Device.glStencilFuncSeparate,
    d0, STENCIL_FUNC, STENCIL_BACK_REF, STENCIL_REF, STENCIL_VALUE_MASK,
    STENCIL_WRITEMASK, STENCIL_BACK_FUNC, STENCIL_BACK_VALUE_MASK,
    STENCIL_BACK_WRITEMASK, DEPTH_FUNC, FRONT, BACK]

/-- C4 (counterexample): two consecutive `depthFunc` reads with no
intervening write issue two device queries, not at most one. -/
theorem claim_C4_counterexample :
    ¬ (List.countP (fun c => GLCall.isQuery c)
        ((RenderingContext.depthFunc_get
          ((RenderingContext.depthFunc_get d0).2)).2.trace) ≤ 1) := by
  decide

/-- C4 (amended): `RenderingContext` getters are direct pass-throughs:
every read queries the device (exactly one query per read, with no
private cache), and every write issues exactly one device call that
updates the device register. -/
theorem claim_C4_amended (d : Device) (v x y w h : Int) :
    RenderingContext.depthFunc_get d =
      (d.depthFuncReg, { d with trace := d.trace ++ [GLCall.getParameterQ DEPTH_FUNC] }) ∧
    RenderingContext.viewport_get d =
      (d.viewportReg, { d with trace := d.trace ++ [GLCall.getParameterQ VIEWPORT] }) ∧
    RenderingContext.depthFunc_set v d =
      { d with depthFuncReg := v, trace := d.trace ++ [GLCall.depthFuncC v] } ∧
    RenderingContext.viewport_set x y w h d =
      { d with viewportReg := (x, y, w, h), trace := d.trace ++ [GLCall.viewportC x y w h] } := by
  refine ⟨?_, rfl, rfl, rfl⟩
  simp [RenderingContext.depthFunc_get, Device.getParameter]

/-- C5: each concrete uniform subtype's iterable/array setter issues
exactly one device call, to the entry point the dispatch table assigns
to that (kind, shape), with exactly the location, (for matrix forms)
the transpose flag, the value, and the source offset and length. -/
theorem claim_C5 (k : UniformKind) (u : UniformDesc) (v : List Int) :
    k.iterableSetter u v = [k.specEntryPoint u v] := by
  cases k <;> rfl

/-- C6: assigning a source sequence to a matrix-form uniform raises
`ValueShapeError` with zero device calls when the length is not an
exact multiple of the matrix's element count, and issues the one device
call when it is. -/
theorem claim_C6 (k : UniformKind) (u : UniformDesc) (v : List Int)
    (hm : k.isMatrix = true) :
    (v.length % k.elementCount ≠ 0 →
      Uniform.assign k u v = Except.error ValueShapeError.mk) ∧
    (v.length % k.elementCount = 0 →
      Uniform.assign k u v = Except.ok [k.specEntryPoint u v]) := by
  constructor <;> intro h
  · simp [Uniform.assign, hm, h]
  · cases k <;> simp_all [Uniform.assign, UniformKind.iterableSetter,
      UniformKind.specEntryPoint, FloatMatrix4x4Uniform.arraySetter,
      FloatMatrix4x3Uniform.arraySetter, IntegerVector3Uniform.iterableSetter,
      FloatVector2Uniform.iterableSetterInternal,
      UnsignedIntegerVector2Uniform.iterableSetter]

/-- Witness for C6: a 4×4 float matrix uniform rejects a length-1
sequence with `ValueShapeError` and zero device calls. -/
theorem claim_C6_witness :
    UniformKind.floatMatrix4x4.isMatrix = true ∧
    ([(1 : Int)].length % UniformKind.floatMatrix4x4.elementCount ≠ 0) ∧
    Uniform.assign UniformKind.floatMatrix4x4 (UniformDesc.mk 0 false none none) [1] =
      Except.error ValueShapeError.mk :=
  ⟨rfl, by decide,
    (claim_C6 UniformKind.floatMatrix4x4 (UniformDesc.mk 0 false none none) [1] rfl).1
      (by decide)⟩

/-- C7 (counterexample): assigning a bare `Buffer` to an `Attribute`'s
`value` and reading it back returns the wrapped descriptor, not the
assigned value itself. -/
theorem claim_C7_counterexample :
    Option.map AttrInput.val
        (Attribute.value_get
          ((Attribute.value_set (AttrInput.buf (Buffer.mk 0)) (Attribute.new 0)).1)).1 ≠
      some (AttrInput.buf (Buffer.mk 0)) := by
  decide

/-- C7 (amended): assigning a value to a `Variable` and reading `value`
back returns the normalized cached assignment with no device call: the
value itself for an `Attribute` assigned a descriptor or for a
`Uniform`, and the wrapped descriptor for an `Attribute` assigned a
bare buffer. -/
theorem claim_C7_amended (s : AttrState) (v : AttributeValue) (b : Buffer)
    (k : UniformKind) (u : UniformDesc) (w : List Int) (us : UniformState) :
    Attribute.value_get ((Attribute.value_set (AttrInput.val v) s).1) = (some v, []) ∧
    Attribute.value_get ((Attribute.value_set (AttrInput.buf b) s).1) =
      (some { buffer := b }, []) ∧
    Uniform.value_get ((Uniform.value_set k u w us).1) = (some w, []) := by
  refine ⟨?_, ?_, rfl⟩ <;>
    simp [Attribute.value_get, Attribute.value_set, Attribute.realValue]

/-- C8 (counterexample): on a `Texture2D` whose `internalFormat` is
outside the `type` defaulting table and whose `type` was never set,
`update` activates the unit and binds the texture but throws while
evaluating `this.type`, issuing zero `texImage2D` upload calls. -/
theorem claim_C8_counterexample :
    Texture2D.update t0 0 =
      ([TexCall.activeTexture 0x84c0, TexCall.bindTexture 0x0de1 1], true) ∧
    List.countP (fun c => TexCall.isTexImage c) (Texture2D.update t0 0).1 ≠ 1 := by
  constructor <;> decide

/-- C8 (amended): provided reading `type` succeeds, `update` makes the
unit active, binds the texture, then issues exactly one `texImage2D` —
the sized form when both `width` and `height` are set, the unsized form
otherwise; when reading `type` throws, the unit is still activated and
the texture bound but no upload is issued. -/
theorem claim_C8_amended (t : Texture2D) (unit w hgt : Nat) (dt : TextureDataType)
    (e : String) :
    (Texture2D.type_get t = Except.ok dt → t.width = some w → t.height = some hgt →
      Texture2D.update t unit =
        ([TexCall.activeTexture (TEXTURE0 + unit), TexCall.bindTexture t.target t.texture,
          TexCall.texImage2D_sized t.target t.lod t.internalFormat w hgt 0
            (Texture2D.format_get t) dt t.pixels], false)) ∧
    (Texture2D.type_get t = Except.ok dt → t.width = none →
      Texture2D.update t unit =
        ([TexCall.activeTexture (TEXTURE0 + unit), TexCall.bindTexture t.target t.texture,
          TexCall.texImage2D_unsized t.target t.lod t.internalFormat
            (Texture2D.format_get t) dt t.pixels], false)) ∧
    (Texture2D.type_get t = Except.ok dt → t.height = none →
      Texture2D.update t unit =
        ([TexCall.activeTexture (TEXTURE0 + unit), TexCall.bindTexture t.target t.texture,
          TexCall.texImage2D_unsized t.target t.lod t.internalFormat
            (Texture2D.format_get t) dt t.pixels], false)) ∧
    (Texture2D.type_get t = Except.error e →
      Texture2D.update t unit =
        ([TexCall.activeTexture (TEXTURE0 + unit), TexCall.bindTexture t.target t.texture],
          true)) := by
  refine ⟨?_, ?_, ?_, ?_⟩ <;> intro h1
  · intro h2 h3
    simp [Texture2D.update, Texture.bind, h1, h2, h3]
  · intro h2
    simp [Texture2D.update, Texture.bind, h1, h2]
  · intro h2
    rcases hw : t.width with _ | w' <;>
      simp [Texture2D.update, Texture.bind, h1, h2, hw]
  · rcases hw : t.width with _ | w' <;> rcases hh : t.height with _ | h' <;>
      simp [Texture2D.update, Texture.bind, h1, hw, hh]

/-- Witness for C8 at a texture with resolvable `type` and both
dimensions set, and at one whose `type` evaluation throws. -/
theorem claim_C8_amended_witness :
    Texture2D.update t1 0 =
      ([TexCall.activeTexture 0x84c0, TexCall.bindTexture 0x0de1 2,
        TexCall.texImage2D_sized 0x0de1 0 TextureFormat.RGBA 4 4 0 TextureFormat.RGBA
          TextureDataType.UNSIGNED_BYTE 5], false) ∧
    Texture2D.update t0 3 =
      ([TexCall.activeTexture (0x84c0 + 3), TexCall.bindTexture 0x0de1 1], true) :=
  ⟨(claim_C8_amended t1 0 4 4 TextureDataType.UNSIGNED_BYTE "").1 rfl rfl rfl,
    (claim_C8_amended t0 3 0 0 TextureDataType.UNSIGNED_BYTE
      "Unset data type without default for selected format.").2.2.2 rfl⟩

/-- C9: the first read of `enabled` on a freshly constructed
`Attribute` returns `false` and issues no device call, seeding the
cache to `false` rather than querying the device. -/
theorem claim_C9 (location : Int) :
    Attribute.enabled_get (Attribute.new location) =
      (false,
        { location := location, enabledCache := some false, valueCache := none },
        []) := rfl

/-- C10: while `type` is unset, its value is determined solely by
`internalFormat` through a fixed table (`RGBA` and `RGB8` map to
`UNSIGNED_BYTE`, `R32F` and `RGBA16F` to `FLOAT`, `RGB10_A2` to
`UNSIGNED_INT_2_10_10_10_REV`; every listed format resolves and every
unlisted format throws); once set, every read returns the set value. -/
theorem claim_C10 (t : Texture2D) (v : TextureDataType) (fmt : TextureFormat) :
    (∀ t' : Texture2D, t.typeCache = none → t'.typeCache = none →
      t.internalFormat = t'.internalFormat →
      Texture2D.type_get t = Texture2D.type_get t') ∧
    (t.typeCache = none → t.internalFormat = TextureFormat.RGBA →
      Texture2D.type_get t = Except.ok TextureDataType.UNSIGNED_BYTE) ∧
    (t.typeCache = none → t.internalFormat = TextureFormat.RGB8 →
      Texture2D.type_get t = Except.ok TextureDataType.UNSIGNED_BYTE) ∧
    (t.typeCache = none → t.internalFormat = TextureFormat.R32F →
      Texture2D.type_get t = Except.ok TextureDataType.FLOAT) ∧
    (t.typeCache = none → t.internalFormat = TextureFormat.RGBA16F →
      Texture2D.type_get t = Except.ok TextureDataType.FLOAT) ∧
    (t.typeCache = none → t.internalFormat = TextureFormat.RGB10_A2 →
      Texture2D.type_get t = Except.ok TextureDataType.UNSIGNED_INT_2_10_10_10_REV) ∧
    (t.typeCache = none → t.internalFormat = fmt → fmt ∈ listedTypeFormats →
      ∃ d, Texture2D.type_get t = Except.ok d) ∧
    (t.typeCache = none → t.internalFormat = fmt → fmt ∉ listedTypeFormats →
      Texture2D.type_get t =
        Except.error "Unset data type without default for selected format.") ∧
    Texture2D.type_get (Texture2D.type_set v t) = Except.ok v := by
  refine ⟨?_, ?_, ?_, ?_, ?_, ?_, ?_, ?_, rfl⟩
  · intro t' h1 h2 h3
    simp [Texture2D.type_get, h1, h2, h3]
  all_goals intro h1 h2
  · simp [Texture2D.type_get, h1, h2]
  · simp [Texture2D.type_get, h1, h2]
  · simp [Texture2D.type_get, h1, h2]
  · simp [Texture2D.type_get, h1, h2]
  · simp [Texture2D.type_get, h1, h2]
  · intro h3
    cases fmt <;> simp_all [Texture2D.type_get, listedTypeFormats]
  · intro h3
    cases fmt <;> simp_all [Texture2D.type_get, listedTypeFormats]

/-- Witness for C10: a texture with unset `type` and `internalFormat`
`RGB10_A2` resolves to `UNSIGNED_INT_2_10_10_10_REV`. -/
theorem claim_C10_witness :
    Texture2D.type_get
        { texture := 0, pixels := 0, internalFormat := TextureFormat.RGB10_A2 } =
      Except.ok TextureDataType.UNSIGNED_INT_2_10_10_10_REV :=
  (claim_C10 { texture := 0, pixels := 0, internalFormat := TextureFormat.RGB10_A2 }
      TextureDataType.UNSIGNED_BYTE TextureFormat.RGB10_A2).2.2.2.2.2.1 rfl rfl

end Umbra
